import Mathlib

/-!
Shallow embedding of `auto_py_to_exe/packaging.py` and verification of its
specification claims.

Modelling conventions:
* Python strings that are manipulated character by character (`str.split`,
  `os.path.basename`) are embedded as `List Char`; strings that are only
  concatenated or compared are embedded as `String`.
* The filesystem seen by `will_packaging_overwrite_existing` is an abstract
  pair of oracles (`pathExists`, `listdir`).
* The directory trees manipulated by `__move_package` are association lists
  of named nodes; a directory that does not exist is `Option.none`.
* `package` is embedded as a function producing the ordered list of its
  observable effects (callback outputs, `sys.setrecursionlimit`,
  `sys.argv` assignment, the PyInstaller invocation, the `__move_package`
  call).  External collaborators — `shlex.split`, `os.path.abspath`,
  whether `PyInstaller.__main__.run` raises, the `traceback.format_exc()`
  texts, `config.temporary_directory`, `config.DEFAULT_RECURSION_LIMIT`,
  the version string — are parameters of a `PackagingEnv`.
* `os.path.join a b` for the relative components used here is modelled as
  POSIX-style concatenation with a separator.
* A settings mapping is modelled by its two recognized keys, each
  `Option`-valued; a missing key makes the corresponding `options[...]`
  lookup raise `KeyError`, which the embedding reports as
  `PackageResult.raised` carrying the effects emitted up to that point.
-/

namespace AutoPyToExe

/-! ## Collision checker (`will_packaging_overwrite_existing`) -/

/-- Embeds `os.path.basename` on a POSIX path: the part after the last separator. -/
def basenameChars (s : List Char) : List Char :=
  (s.reverse.takeWhile (fun c => c ≠ '/')).reverse

/-- Python `str.split('.')`: split a character list at every dot.
`splitDots [] = [[]]` mirrors `''.split('.') == ['']`. -/
def splitDots : List Char → List (List Char)
  | [] => [[]]
  | c :: cs =>
    match splitDots cs with
    | [] => [[]]
    | w :: ws => if c = '.' then [] :: w :: ws else (c :: w) :: ws

/-- Python `'.'.join(ws)`. -/
def joinDots : List (List Char) → List Char
  | [] => []
  | [w] => w
  | w :: ws => w ++ '.' :: joinDots ws

/-- Computes `'.'.join(name.split('.')[:-1])`: the base name with its last extension
stripped, as computed on line 57 of `packaging.py`. -/
def stripLastExtension (name : List Char) : List Char :=
  joinDots (splitDots name).dropLast

/-- The literal `'.exe'` suffix appended in single-file mode. -/
def exeExtension : List Char := ['.', 'e', 'x', 'e']

/-- Abstract filesystem oracles used by the collision checker:
`os.path.exists` and `os.listdir`. -/
structure ListingFS where
  pathExists : List Char → Bool
  listdir : List Char → List (List Char)

/-- Embedding of `will_packaging_overwrite_existing(file_path, one_file,
output_folder)` (packaging.py lines 53–64). -/
def will_packaging_overwrite_existing (fs : ListingFS) (file_path : List Char)
    (one_file : Bool) (output_folder : List Char) : Bool :=
  if fs.pathExists output_folder = false then false
  else
    let no_extension := stripLastExtension (basenameChars file_path)
    if one_file then
      (fs.listdir output_folder).contains (no_extension ++ exeExtension)
    else
      (fs.listdir output_folder).contains no_extension

/-- Modelled from the spec's words (refinement reference): the derived
artifact name — the source file's base name with its last extension
stripped, with the executable extension appended in single-file mode and
the bare name in directory mode.  The code hard-codes `'.exe'` as the
executable extension, so the spec's "platform executable extension" is
read as that literal suffix. -/
def derivedName (file_path : List Char) (one_file : Bool) : List Char :=
  let base := stripLastExtension (basenameChars file_path)
  if one_file then base ++ exeExtension else base

/-! ## Artifact mover (`__move_package`) -/

/-- A filesystem node: a regular file or a directory of named children. -/
inductive FsNode where
  | file (content : String)
  | dir (entries : List (String × FsNode))

/-- A directory's contents as an association list; `os.listdir` is the
list of names. -/
def listdirD (d : List (String × FsNode)) : List String := d.map Prod.fst

/-- Lines 76–81 of `packaging.py`: if an entry named `name` exists at the
destination (`os.path.exists(_dst)`, i.e. `find?` succeeds), delete it —
`os.remove` for a file, `shutil.rmtree` for a directory. -/
def deleteExisting (dst : List (String × FsNode)) (name : String) :
    List (String × FsNode) :=
  match dst.find? (fun p => p.1 == name) with
  | some (_, FsNode.file _) => dst.filter (fun p => !(p.1 == name))
  | some (_, FsNode.dir _) => dst.filter (fun p => !(p.1 == name))
  | none => dst

/-- One iteration of the loop in `__move_package` (packaging.py lines
74–83), acting on the pair (source directory, destination directory) for
the listed name `file_or_folder`: an existing destination entry of that
name is deleted first, then `shutil.move` relocates the source entry into
the destination. -/
def moveStep (st : List (String × FsNode) × List (String × FsNode))
    (file_or_folder : String) :
    List (String × FsNode) × List (String × FsNode) :=
  let src := st.1
  let dst := deleteExisting st.2 file_or_folder
  match src.find? (fun p => p.1 == file_or_folder) with
  | some e => (src.filter (fun p => !(p.1 == file_or_folder)), dst ++ [e])
  | none => (src, dst)

/-- Embedding of `__move_package(src, dst)` (packaging.py lines 67–83):
create the destination if absent (`os.makedirs`), then move every
top-level entry of the source into it, iterating over the initial
`os.listdir(src)`.  Returns the final (source, destination) contents. -/
def movePackage (src : List (String × FsNode))
    (dst : Option (List (String × FsNode))) :
    List (String × FsNode) × List (String × FsNode) :=
  let dst0 := match dst with | none => [] | some d => d
  (listdirD src).foldl moveStep (src, dst0)

/-! ## Log relay (`ForwardToFunctionStream`) -/

/-- Embedding of `ForwardToFunctionStream.write` (packaging.py lines
90–92): the first component is the sequence of arguments the wrapped
output function is invoked with during the call, the second is the
returned value `len(string)`. -/
def ForwardToFunctionStream.write (string : String) : List String × Nat :=
  ([string], string.length)

/-! ## Packaging orchestrator (`package`) -/

/-- External collaborators and process-wide constants seen by `package`. -/
structure PackagingEnv where
  /-- The `auto_py_to_exe.__version__` string. -/
  version : String
  /-- The `config.temporary_directory` workspace path. -/
  temporaryDirectory : String
  /-- The `config.DEFAULT_RECURSION_LIMIT` constant. -/
  defaultRecursionLimit : Nat
  /-- The `os.path.abspath` resolver. -/
  abspath : String → String
  /-- The `shlex.split` tokenizer. -/
  shlexSplit : String → List String
  /-- Whether `run_pyinstaller()` raises. -/
  runPyinstallerRaises : Bool
  /-- The `traceback.format_exc()` text after a `run_pyinstaller()` failure. -/
  runPyinstallerTraceback : String
  /-- Whether `__move_package` raises. -/
  movePackageRaises : Bool
  /-- The `traceback.format_exc()` text after a `__move_package` failure. -/
  movePackageTraceback : String

/-- The settings mapping `options`, restricted to its two recognized keys;
`none` models a missing key. -/
structure PySettings where
  increaseRecursionLimit : Option Bool
  outputDirectory : Option String

/-- Embeds `os.path.join` for the relative second components used in `package`. -/
def joinPath (a b : String) : String := a ++ "/" ++ b

/-- An observable effect of `package`, in program order. -/
inductive PEvent where
  /-- A call `output_function(s)`. -/
  | out (s : String)
  /-- A call `sys.setrecursionlimit(n)`. -/
  | setRecursionLimit (n : Nat)
  /-- An assignment `sys.argv = argv`. -/
  | setArgv (argv : List String)
  /-- The `run_pyinstaller()` invocation. -/
  | runPyinstaller
  /-- The `__move_package(src, dst)` invocation. -/
  | movePackage (src dst : String)
  deriving DecidableEq

/-- The outcome of `package`: a returned boolean together with the effect
trace, or a propagated exception (`KeyError` from a missing settings key)
with the effects emitted before it. -/
inductive PackageResult where
  | ok (success : Bool) (events : List PEvent)
  | raised (events : List PEvent)
  deriving DecidableEq

/-- The effect trace of a `PackageResult`. -/
def PackageResult.events : PackageResult → List PEvent
  | .ok _ evs => evs
  | .raised evs => evs

/-- The forced override arguments built on lines 120–122:
`['--distpath', dist_path] + ['--workpath', build_path] + ['--specpath', config.temporary_directory]`. -/
def forcedArgs (env : PackagingEnv) : List String :=
  ["--distpath", joinPath env.temporaryDirectory "application"] ++
    ["--workpath", joinPath env.temporaryDirectory "build"] ++
    ["--specpath", env.temporaryDirectory]

/-- Embedding of `package(pyinstaller_command, options, output_function)`
(packaging.py lines 103–168), producing the ordered effect trace and the
returned boolean. -/
def package (env : PackagingEnv) (pyinstaller_command : String)
    (options : PySettings) : PackageResult :=
  let ev := [PEvent.out ("Running auto-py-to-exe v" ++ env.version)]
  let ev := ev ++ [PEvent.out ("Building directory: " ++ env.temporaryDirectory ++ "\n")]
  let dist_path := joinPath env.temporaryDirectory "application"
  let extra_args := forcedArgs env
  let ev := ev ++ [PEvent.out ("Provided command: " ++ pyinstaller_command ++ "\n")]
  match options.increaseRecursionLimit with
  | none => PackageResult.raised ev
  | some increase_recursion_limit =>
    match options.outputDirectory with
    | none => PackageResult.raised ev
    | some od =>
      let output_directory := env.abspath od
      let ev :=
        if increase_recursion_limit then
          ev ++ [PEvent.setRecursionLimit 5000,
                 PEvent.out "Recursion Limit is set to 5000\n"]
        else
          ev ++ [PEvent.setRecursionLimit env.defaultRecursionLimit]
      let argv := env.shlexSplit pyinstaller_command ++ extra_args
      let ev := ev ++ [PEvent.setArgv argv,
                       PEvent.out ("Executing: " ++ String.intercalate " " argv ++ "\n"),
                       PEvent.out "\n",
                       PEvent.runPyinstaller]
      if env.runPyinstallerRaises then
        let ev := ev ++ [PEvent.out "An error occurred, traceback follows:\n",
                         PEvent.out env.runPyinstallerTraceback]
        let ev := ev ++ [PEvent.out "\n"]
        PackageResult.ok false
          (ev ++ [PEvent.out "Project output will not be moved to output folder\n"])
      else
        let ev := ev ++ [PEvent.out "\n",
                         PEvent.out ("Moving project to: " ++ output_directory ++ "\n"),
                         PEvent.movePackage dist_path output_directory]
        if env.movePackageRaises then
          PackageResult.ok true
            (ev ++ [PEvent.out "Failed to move project, traceback follows:\n",
                    PEvent.out env.movePackageTraceback])
        else
          PackageResult.ok true ev

/-- The sequence of strings passed to the output callback. -/
def callbackOutputs (evs : List PEvent) : List String :=
  evs.filterMap (fun e => match e with | PEvent.out s => some s | _ => none)

/-- The sequence of `__move_package` invocations. -/
def moveCalls (evs : List PEvent) : List (String × String) :=
  evs.filterMap (fun e => match e with | PEvent.movePackage s d => some (s, d) | _ => none)

/-- The sequence of `sys.setrecursionlimit` arguments. -/
def recursionLimitSets (evs : List PEvent) : List Nat :=
  evs.filterMap (fun e => match e with | PEvent.setRecursionLimit n => some n | _ => none)

/-- The sequence of argument vectors installed in `sys.argv`. -/
def argvSets (evs : List PEvent) : List (List String) :=
  evs.filterMap (fun e => match e with | PEvent.setArgv v => some v | _ => none)

/-- The events emitted strictly before the first PyInstaller invocation. -/
def eventsBeforeRun (evs : List PEvent) : List PEvent :=
  evs.takeWhile (fun e => !(e == PEvent.runPyinstaller))

/-! ## Concrete instances used by the witness theorems -/

/-- A concrete environment; the two flags select whether the external
invocation and the artifact move raise. -/
def sampleEnv (runRaises moveRaises : Bool) : PackagingEnv :=
  { version := "2.46.0"
    temporaryDirectory := "/tmp/workdir"
    defaultRecursionLimit := 1000
    abspath := fun s => "/home/user/" ++ s
    shlexSplit := fun s => [s]
    runPyinstallerRaises := runRaises
    runPyinstallerTraceback := "Traceback: run failed"
    movePackageRaises := moveRaises
    movePackageTraceback := "Traceback: move failed" }

/-- A settings mapping holding both recognized keys. -/
def sampleSettings : PySettings :=
  { increaseRecursionLimit := some true
    outputDirectory := some "output" }

/-- A settings mapping missing both recognized keys. -/
def emptySettings : PySettings :=
  { increaseRecursionLimit := none
    outputDirectory := none }

/-- The name `script` as characters: a base name with no extension to strip. -/
def scriptChars : List Char := ['s', 'c', 'r', 'i', 'p', 't']

/-- The name `out` as characters. -/
def outChars : List Char := ['o', 'u', 't']

/-- A filesystem where every path exists and every listing is
`["script"]`. -/
def listingExample : ListingFS :=
  { pathExists := fun _ => true
    listdir := fun _ => [['s', 'c', 'r', 'i', 'p', 't']] }

/-- The spec's artifact-move example source: `{x.txt, sub/}`. -/
def moveSrcExample : List (String × FsNode) :=
  [("x.txt", FsNode.file "new"), ("sub", FsNode.dir [])]

/-- The spec's artifact-move example destination, already containing
`x.txt`. -/
def moveDstExample : List (String × FsNode) :=
  [("x.txt", FsNode.file "old")]

/-! ## Theorems -/

/-- C7: `write(s)` on the log-relay stream invokes the wrapped output
function exactly once, with exactly `s` as its argument, and returns
`len(s)`. -/
theorem forward_stream_write_spec (s : String) :
    (ForwardToFunctionStream.write s).1 = [s] ∧
    (ForwardToFunctionStream.write s).2 = s.length :=
  ⟨rfl, rfl⟩

/-- C3: the collision check returns false whenever the destination does
not exist; otherwise it returns true iff the derived name — the source
base name with its last extension stripped, `.exe`-suffixed in
single-file mode, bare in directory mode — is in the destination's
listing. -/
theorem will_packaging_overwrite_existing_spec (fs : ListingFS)
    (file_path : List Char) (one_file : Bool) (output_folder : List Char) :
    will_packaging_overwrite_existing fs file_path one_file output_folder =
      if fs.pathExists output_folder then
        (fs.listdir output_folder).contains (derivedName file_path one_file)
      else false := by
  unfold will_packaging_overwrite_existing derivedName
  cases h : fs.pathExists output_folder <;> cases one_file <;> simp [h]

/-- A character list without a dot splits into a single word. -/
theorem splitDots_of_not_mem {s : List Char} (h : ('.') ∉ s) :
    splitDots s = [s] := by
  induction s with
  | nil => rfl
  | cons c cs ih =>
    rw [List.mem_cons] at h
    push_neg at h
    simp [splitDots, ih h.2, Ne.symm h.1]

/-- Stripping the last extension of a dotless name yields the empty
name, mirroring `'.'.join(name.split('.')[:-1])`. -/
theorem stripLastExtension_of_not_mem {s : List Char} (h : ('.') ∉ s) :
    stripLastExtension s = [] := by
  simp [stripLastExtension, splitDots_of_not_mem h, joinDots]

/-- C9: for a source path whose base name contains no dot, the derived
name is empty, so the directory-mode check returns false even when the
destination exists and lists the base name, while the single-file check
looks for the literal name `.exe`. -/
theorem will_packaging_overwrite_no_extension (fs : ListingFS)
    (file_path output_folder : List Char)
    (hnodot : ('.') ∉ basenameChars file_path)
    (hex : fs.pathExists output_folder = true)
    (hmem : basenameChars file_path ∈ fs.listdir output_folder)
    (hne : [] ∉ fs.listdir output_folder) :
    will_packaging_overwrite_existing fs file_path false output_folder = false ∧
    will_packaging_overwrite_existing fs file_path true output_folder =
      (fs.listdir output_folder).contains exeExtension := by
  constructor
  · simp [will_packaging_overwrite_existing, hex,
      stripLastExtension_of_not_mem hnodot, hne]
  · simp [will_packaging_overwrite_existing, hex,
      stripLastExtension_of_not_mem hnodot]

/-- Witness for C9 at the concrete input `script` / `out`. -/
theorem will_packaging_overwrite_no_extension_witness :
    (('.') ∉ basenameChars scriptChars ∧
      listingExample.pathExists outChars = true ∧
      basenameChars scriptChars ∈ listingExample.listdir outChars ∧
      [] ∉ listingExample.listdir outChars) ∧
    (will_packaging_overwrite_existing listingExample scriptChars false outChars = false ∧
      will_packaging_overwrite_existing listingExample scriptChars true outChars =
        (listingExample.listdir outChars).contains exeExtension) :=
  ⟨⟨by decide, rfl, by decide, by decide⟩,
    will_packaging_overwrite_no_extension listingExample scriptChars outChars
      (by decide) rfl (by decide) (by decide)⟩

/-- The destination-side deletion of `__move_package` removes exactly the
same-named entries, whether the existing entry is a file or a
directory. -/
theorem deleteExisting_eq_filter (dst : List (String × FsNode)) (name : String) :
    deleteExisting dst name = dst.filter (fun p => !(p.1 == name)) := by
  unfold deleteExisting
  cases h : dst.find? (fun p => p.1 == name) with
  | none =>
    rw [List.find?_eq_none] at h
    rw [List.filter_eq_self.mpr]
    intro a ha
    simpa using h a ha
  | some e =>
    obtain ⟨n, node⟩ := e
    cases node <;> rfl

/-- Filtering away a name absent from a directory leaves it unchanged. -/
theorem filter_ne_of_not_mem {d : List (String × FsNode)} {x : String}
    (h : x ∉ listdirD d) : d.filter (fun p => !(p.1 == x)) = d := by
  simp only [listdirD] at h
  rw [List.filter_eq_self]
  intro a ha
  simp only [Bool.not_eq_eq_eq_not, Bool.not_true, beq_eq_false_iff_ne, ne_eq]
  intro hax
  exact h (hax ▸ List.mem_map_of_mem Prod.fst ha)

/-- The first loop iteration of `__move_package` on a directory whose
head entry has a fresh name: the head is moved, overwriting any
same-named destination entry. -/
theorem moveStep_cons (e : String × FsNode) (tl dst : List (String × FsNode))
    (h : e.1 ∉ listdirD tl) :
    moveStep (e :: tl, dst) e.1 =
      (tl, dst.filter (fun p => !(p.1 == e.1)) ++ [e]) := by
  simp [moveStep, deleteExisting_eq_filter, filter_ne_of_not_mem h]

/-- The `__move_package` loop, run over the initial source listing,
empties the source and leaves the destination holding the unaffected old
entries followed by all the source entries. -/
theorem moveLoop_eq (src : List (String × FsNode)) :
    ∀ dst : List (String × FsNode), (listdirD src).Nodup →
      (listdirD src).foldl moveStep (src, dst) =
        ([], dst.filter (fun p => !((listdirD src).contains p.1)) ++ src) := by
  induction src with
  | nil =>
    intro dst _
    simp [listdirD]
  | cons e tl ih =>
    intro dst h
    simp only [listdirD, List.map_cons] at h ⊢
    simp only [listdirD] at ih
    obtain ⟨h1, h2⟩ := List.nodup_cons.mp h
    rw [List.foldl_cons, moveStep_cons e tl dst h1, ih _ h2]
    rw [List.filter_append, List.filter_filter]
    have he : [e].filter (fun p => !((List.map Prod.fst tl).contains p.1)) = [e] := by
      simp [h1]
    rw [he]
    have hfg :
        dst.filter (fun a =>
            !((List.map Prod.fst tl).contains a.1) && !(a.1 == e.1)) =
          dst.filter (fun p => !((e.1 :: List.map Prod.fst tl).contains p.1)) := by
      apply List.filter_congr
      intro a _
      simp [List.contains_cons, Bool.not_or, Bool.and_comm]
    rw [hfg]
    simp [List.append_assoc]

/-- C5: `__move_package` creates the destination if absent and moves
every top-level source entry into it; same-named destination entries are
deleted first, so they are overwritten, and nothing remains in the
source. -/
theorem movePackage_correct (src : List (String × FsNode))
    (dst : Option (List (String × FsNode)))
    (h : (listdirD src).Nodup) :
    (movePackage src dst).1 = [] ∧
    (movePackage src dst).2 =
      (match dst with | none => [] | some d => d).filter
        (fun p => !((listdirD src).contains p.1)) ++ src := by
  cases dst with
  | none =>
    rw [show movePackage src none = (listdirD src).foldl moveStep (src, []) from rfl]
    rw [moveLoop_eq src [] h]
    exact ⟨rfl, rfl⟩
  | some d =>
    rw [show movePackage src (some d) = (listdirD src).foldl moveStep (src, d) from rfl]
    rw [moveLoop_eq src d h]
    exact ⟨rfl, rfl⟩

/-- Witness for C5 at the spec's example: source `{x.txt, sub/}`,
destination already containing `x.txt`. -/
theorem movePackage_correct_witness :
    (listdirD moveSrcExample).Nodup ∧
    ((movePackage moveSrcExample (some moveDstExample)).1 = [] ∧
      (movePackage moveSrcExample (some moveDstExample)).2 =
        moveDstExample.filter
          (fun p => !((listdirD moveSrcExample).contains p.1)) ++ moveSrcExample) :=
  ⟨by decide, movePackage_correct moveSrcExample (some moveDstExample) (by decide)⟩

/-- C1: when the external packaging invocation raises, `package` returns
`false`, the callback sequence includes the formatted traceback text, and
`__move_package` is never invoked. -/
theorem package_run_failure (env : PackagingEnv) (cmd : String)
    (opts : PySettings) (b : Bool) (d : String)
    (hb : opts.increaseRecursionLimit = some b)
    (hd : opts.outputDirectory = some d)
    (hr : env.runPyinstallerRaises = true) :
    (∃ evs, package env cmd opts = PackageResult.ok false evs) ∧
    env.runPyinstallerTraceback ∈ callbackOutputs (package env cmd opts).events ∧
    moveCalls (package env cmd opts).events = [] := by
  cases b <;>
    simp [package, hb, hd, hr, callbackOutputs, moveCalls, PackageResult.events]

/-- Witness for C1. -/
theorem package_run_failure_witness :
    (sampleSettings.increaseRecursionLimit = some true ∧
      sampleSettings.outputDirectory = some "output" ∧
      (sampleEnv true false).runPyinstallerRaises = true) ∧
    ((∃ evs, package (sampleEnv true false) "script.py" sampleSettings =
        PackageResult.ok false evs) ∧
      (sampleEnv true false).runPyinstallerTraceback ∈
        callbackOutputs (package (sampleEnv true false) "script.py" sampleSettings).events ∧
      moveCalls (package (sampleEnv true false) "script.py" sampleSettings).events = []) :=
  ⟨⟨rfl, rfl, rfl⟩,
    package_run_failure (sampleEnv true false) "script.py" sampleSettings
      true "output" rfl rfl rfl⟩

/-- C2: when the external invocation succeeds but the artifact relocation
raises, `package` still returns `true` and the callback sequence includes
the relocation traceback text. -/
theorem package_move_failure (env : PackagingEnv) (cmd : String)
    (opts : PySettings) (b : Bool) (d : String)
    (hb : opts.increaseRecursionLimit = some b)
    (hd : opts.outputDirectory = some d)
    (hr : env.runPyinstallerRaises = false)
    (hm : env.movePackageRaises = true) :
    (∃ evs, package env cmd opts = PackageResult.ok true evs) ∧
    env.movePackageTraceback ∈ callbackOutputs (package env cmd opts).events := by
  cases b <;>
    simp [package, hb, hd, hr, hm, callbackOutputs, PackageResult.events]

/-- Witness for C2. -/
theorem package_move_failure_witness :
    (sampleSettings.increaseRecursionLimit = some true ∧
      sampleSettings.outputDirectory = some "output" ∧
      (sampleEnv false true).runPyinstallerRaises = false ∧
      (sampleEnv false true).movePackageRaises = true) ∧
    ((∃ evs, package (sampleEnv false true) "script.py" sampleSettings =
        PackageResult.ok true evs) ∧
      (sampleEnv false true).movePackageTraceback ∈
        callbackOutputs (package (sampleEnv false true) "script.py" sampleSettings).events) :=
  ⟨⟨rfl, rfl, rfl, rfl⟩,
    package_move_failure (sampleEnv false true) "script.py" sampleSettings
      true "output" rfl rfl rfl rfl⟩

/-- C4: the argument vector installed in `sys.argv` is exactly the
shell-split command tokens followed by the six forced override tokens
(`--distpath <workspace>/application --workpath <workspace>/build
--specpath <workspace>`), and it is installed before the external tool is
invoked, so the overrides come after any user-specified values. -/
theorem package_argv_override (env : PackagingEnv) (cmd : String)
    (opts : PySettings) (b : Bool) (d : String)
    (hb : opts.increaseRecursionLimit = some b)
    (hd : opts.outputDirectory = some d) :
    argvSets (package env cmd opts).events =
      [env.shlexSplit cmd ++
        ["--distpath", joinPath env.temporaryDirectory "application",
         "--workpath", joinPath env.temporaryDirectory "build",
         "--specpath", env.temporaryDirectory]] ∧
    PEvent.setArgv (env.shlexSplit cmd ++
        ["--distpath", joinPath env.temporaryDirectory "application",
         "--workpath", joinPath env.temporaryDirectory "build",
         "--specpath", env.temporaryDirectory]) ∈
      eventsBeforeRun (package env cmd opts).events := by
  cases b <;> cases hr : env.runPyinstallerRaises <;>
    cases hm : env.movePackageRaises <;>
    simp [package, forcedArgs, hb, hd, hr, hm, argvSets, eventsBeforeRun,
      PackageResult.events]

/-- Witness for C4. -/
theorem package_argv_override_witness :
    (sampleSettings.increaseRecursionLimit = some true ∧
      sampleSettings.outputDirectory = some "output") ∧
    (argvSets (package (sampleEnv false false) "script.py" sampleSettings).events =
      [(sampleEnv false false).shlexSplit "script.py" ++
        ["--distpath", joinPath (sampleEnv false false).temporaryDirectory "application",
         "--workpath", joinPath (sampleEnv false false).temporaryDirectory "build",
         "--specpath", (sampleEnv false false).temporaryDirectory]] ∧
      PEvent.setArgv ((sampleEnv false false).shlexSplit "script.py" ++
        ["--distpath", joinPath (sampleEnv false false).temporaryDirectory "application",
         "--workpath", joinPath (sampleEnv false false).temporaryDirectory "build",
         "--specpath", (sampleEnv false false).temporaryDirectory]) ∈
        eventsBeforeRun (package (sampleEnv false false) "script.py" sampleSettings).events) :=
  ⟨⟨rfl, rfl⟩,
    package_argv_override (sampleEnv false false) "script.py" sampleSettings
      true "output" rfl rfl⟩

/-- C6: the process-wide recursion limit is set exactly once — to 5000
when `increaseRecursionLimit` is true, to the default constant when it is
false — and the set happens before the external tool is invoked. -/
theorem package_recursion_limit (env : PackagingEnv) (cmd : String)
    (opts : PySettings) (b : Bool) (d : String)
    (hb : opts.increaseRecursionLimit = some b)
    (hd : opts.outputDirectory = some d) :
    recursionLimitSets (package env cmd opts).events =
      [if b then 5000 else env.defaultRecursionLimit] ∧
    PEvent.setRecursionLimit (if b then 5000 else env.defaultRecursionLimit) ∈
      eventsBeforeRun (package env cmd opts).events := by
  cases b <;> cases hr : env.runPyinstallerRaises <;>
    cases hm : env.movePackageRaises <;>
    simp [package, hb, hd, hr, hm, recursionLimitSets, eventsBeforeRun,
      PackageResult.events]

/-- Witness for C6. -/
theorem package_recursion_limit_witness :
    (sampleSettings.increaseRecursionLimit = some true ∧
      sampleSettings.outputDirectory = some "output") ∧
    (recursionLimitSets (package (sampleEnv false false) "script.py" sampleSettings).events =
      [if true then 5000 else (sampleEnv false false).defaultRecursionLimit] ∧
      PEvent.setRecursionLimit
          (if true then 5000 else (sampleEnv false false).defaultRecursionLimit) ∈
        eventsBeforeRun (package (sampleEnv false false) "script.py" sampleSettings).events) :=
  ⟨⟨rfl, rfl⟩,
    package_recursion_limit (sampleEnv false false) "script.py" sampleSettings
      true "output" rfl rfl⟩

/-- C10: when a recognized settings key is missing, `package` propagates
the lookup exception after emitting exactly the banner and command lines,
and the external tool is never invoked. -/
theorem package_missing_key_raises (env : PackagingEnv) (cmd : String)
    (opts : PySettings)
    (h : opts.increaseRecursionLimit = none ∨ opts.outputDirectory = none) :
    package env cmd opts = PackageResult.raised
      [PEvent.out ("Running auto-py-to-exe v" ++ env.version),
       PEvent.out ("Building directory: " ++ env.temporaryDirectory ++ "\n"),
       PEvent.out ("Provided command: " ++ cmd ++ "\n")] ∧
    PEvent.runPyinstaller ∉ (package env cmd opts).events := by
  rcases h with h | h
  · simp [package, h, PackageResult.events]
  · cases hic : opts.increaseRecursionLimit with
    | none => simp [package, hic, PackageResult.events]
    | some bb => simp [package, hic, h, PackageResult.events]

/-- Witness for C10 with both keys missing. -/
theorem package_missing_key_raises_witness :
    (emptySettings.increaseRecursionLimit = none ∨
      emptySettings.outputDirectory = none) ∧
    (package (sampleEnv false false) "script.py" emptySettings =
      PackageResult.raised
        [PEvent.out ("Running auto-py-to-exe v" ++ (sampleEnv false false).version),
         PEvent.out ("Building directory: " ++
           (sampleEnv false false).temporaryDirectory ++ "\n"),
         PEvent.out ("Provided command: " ++ "script.py" ++ "\n")] ∧
      PEvent.runPyinstaller ∉
        (package (sampleEnv false false) "script.py" emptySettings).events) :=
  ⟨Or.inl rfl,
    package_missing_key_raises (sampleEnv false false) "script.py" emptySettings
      (Or.inl rfl)⟩

end AutoPyToExe
